import Mathlib

set_option maxRecDepth 40000

/-!
Verification development for nwpc-workflow-log-collector (ecflow part).

The embedding abstracts a log line by the data the code reads from it:
its calendar date (datetime.date values are totally ordered, embedded as
Nat) and, for the extractor, the external capabilities applied to its
text (strip, regex search for the node path, and the external line
parser), which the source treats as black boxes and which are passed
here as function parameters.

The two while-loops of get_line_no_range are embedded with an explicit
fuel argument so that every definition remains a computable structural
recursion the kernel can evaluate.  Each loop iteration that recurses
consumes a nonempty batch of lines, so fuel equal to the number of lines
plus one is never exhausted; get_line_no_range always supplies that
much.
-/

/-- Embeds the linear scan in the first loop of get_line_no_range,
log_file_util.py line 130: Python range(k, len(l)) searching for the
first index i greater or equal to k whose element satisfies p, returning
that absolute index within l. -/
def findIdxFrom (p : α → Bool) (l : List α) (k : Nat) : Option Nat :=
  ((l.drop k).findIdx? p).map (· + k)

/-- Embeds lines 122-141 of log_file_util.py: once the begin line has
been decided inside the current batch, look for the stop line.  batchL
is the current batch (next_n_lines), restAfter the file content after
it, cur_first the absolute 1-based line number of the first line of the
batch, begin_no the begin line number just decided.  Returns Sum.inl for
the returns at lines 135-138, and Sum.inr (remaining file,
cur_first_line_no, begin_line_no, end_line_no) for the two break
statements (lines 126 and 141) that fall through to the second loop.
The scan for the stop date starts at Python index cur_first_line_no - 1
(line 130), exactly as in the source. -/
def firstLoopStop (dateOf : α → Nat) (stop_date : Option Nat)
    (batchL restAfter : List α) (cur_first begin_no : Nat) :
    (Nat × Int) ⊕ (List α × Nat × Nat × Int) :=
  match stop_date with
  | none =>
      Sum.inr (restAfter, cur_first + batchL.length,
        begin_no, ((cur_first + batchL.length : Nat) : Int))
  | some sd =>
      match findIdxFrom (fun x => decide (sd ≤ dateOf x)) batchL (cur_first - 1) with
      | some i =>
          if begin_no = cur_first + i then Sum.inl (0, 0)
          else Sum.inl (begin_no, ((cur_first + i : Nat) : Int))
      | none =>
          Sum.inr (restAfter, cur_first + batchL.length,
            begin_no, ((cur_first + batchL.length : Nat) : Int))

/-- Embeds the first while loop of get_line_no_range (log_file_util.py
lines 92-141).  rest is the unread part of the file, cur_first the
absolute 1-based number of its first line, begin_no and end_no the
Python variables begin_line_no (initially 0) and end_line_no (initially
-1, hence Int).  Sum.inl is a return from inside the loop (lines 97,
135-138), Sum.inr is a break into the second loop. -/
def firstLoopGo (dateOf : α → Nat) (start_date stop_date : Option Nat)
    (batch_line_no : Nat) :
    Nat → List α → Nat → Nat → Int → (Nat × Int) ⊕ (List α × Nat × Nat × Int)
  | 0, _, _, begin_no, end_no => Sum.inl (begin_no, end_no)
  | fuel + 1, rest, cur_first, begin_no, end_no =>
    match rest.take batch_line_no with
    | [] => Sum.inl (begin_no, end_no)
    | x :: xs =>
      match start_date with
      | none =>
          firstLoopStop dateOf stop_date (x :: xs) (rest.drop batch_line_no)
            cur_first cur_first
      | some sd =>
          if dateOf ((x :: xs).getLast (List.cons_ne_nil x xs)) < sd then
            firstLoopGo dateOf start_date stop_date batch_line_no fuel
              (rest.drop batch_line_no)
              (cur_first + (x :: xs).length) begin_no end_no
          else
            match (x :: xs).findIdx? (fun a => decide (sd ≤ dateOf a)) with
            | some i =>
                firstLoopStop dateOf stop_date (x :: xs) (rest.drop batch_line_no)
                  cur_first (cur_first + i)
            | none =>
                firstLoopStop dateOf stop_date (x :: xs) (rest.drop batch_line_no)
                  cur_first begin_no

/-- Embeds the second while loop of get_line_no_range (log_file_util.py
lines 143-174), including the branch at lines 158-161 that advances
cur_first_line_no by the batch length and then sets end_line_no to
cur_first_line_no plus the batch length again. -/
def secondLoopGo (dateOf : α → Nat) (stop_date : Option Nat) (batch_line_no : Nat) :
    Nat → List α → Nat → Nat → Int → Nat × Int
  | 0, _, _, begin_no, end_no => (begin_no, end_no)
  | fuel + 1, rest, cur_first, begin_no, end_no =>
    match rest.take batch_line_no with
    | [] => (begin_no, end_no)
    | x :: xs =>
      match stop_date with
      | none =>
          secondLoopGo dateOf stop_date batch_line_no fuel (rest.drop batch_line_no)
            (cur_first + (x :: xs).length) begin_no
            ((cur_first + (x :: xs).length : Nat) : Int)
      | some sd =>
          if dateOf ((x :: xs).getLast (List.cons_ne_nil x xs)) < sd then
            secondLoopGo dateOf stop_date batch_line_no fuel (rest.drop batch_line_no)
              (cur_first + (x :: xs).length) begin_no
              ((cur_first + (x :: xs).length + (x :: xs).length : Nat) : Int)
          else
            match (x :: xs).findIdx? (fun a => decide (sd ≤ dateOf a)) with
            | some i => (begin_no, ((cur_first + i : Nat) : Int))
            | none => (begin_no, ((cur_first + (x :: xs).length : Nat) : Int))

/-- Embeds get_line_no_range from log_file_util.py (lines 42-177): the
window locator.  lines is the log file as a list of lines, dateOf the
date of a line (get_date_from_line), start_date and stop_date the
optional bounds of the half-open date range, batch_line_no the batch
size.  Returns the Python pair (begin_line_no, end_line_no); the second
component is an Int because end_line_no is initialised to -1. -/
def get_line_no_range (dateOf : α → Nat) (lines : List α)
    (start_date stop_date : Option Nat) (batch_line_no : Nat) : Nat × Int :=
  match firstLoopGo dateOf start_date stop_date batch_line_no (lines.length + 1) lines 1 0 (-1) with
  | Sum.inl r => r
  | Sum.inr (rest, cf, b, e) =>
      secondLoopGo dateOf stop_date batch_line_no (lines.length + 1) rest cf b e

/-- Embeds the Python readline calls in get_record_list: the i-th
sequential read (i counted 0-based from the start of the file) returns
the i-th line, or emptyLine once the end of file is reached, matching
readline returning the empty string at end of file. -/
def readlineAt (emptyLine : α) (lines : List α) (i : Nat) : α :=
  lines.getD i emptyLine

/-- Embeds the skip phase of get_record_list in log_file_util.py (lines
249-260): batch_count full islice batches of 1000 lines (islice stops at
end of file, hence the min) followed by range(0, remain_lines - 1) calls
of next.  With Nat subtraction, remain_lines - 1 is 0 when remain_lines
is 0, exactly like the empty Python range(0, -1). -/
def skipped_line_count (total_lines begin_line_no : Nat) : Nat :=
  min ((begin_line_no / 1000) * 1000) total_lines + (begin_line_no % 1000 - 1)

/-- Embeds the skip phase of get_record_list in ecflow/analytic.py
(lines 64-73), whose remain loop is range(0, remain_lines) rather than
range(0, remain_lines - 1). -/
def analytic_skipped_line_count (total_lines begin_line_no : Nat) : Nat :=
  min ((begin_line_no / 1000) * 1000) total_lines + begin_line_no % 1000

/-- Embeds the per-line body of get_record_list in log_file_util.py
(lines 269-280): strip the line, search it for the node path, and on a
match parse it, dropping parser results that are None. -/
def process_line (strip : α → α) (search : α → Bool) (parse : α → Option ρ)
    (line : α) : Option ρ :=
  if search (strip line) then parse (strip line) else none

/-- Embeds get_record_list from log_file_util.py (lines 180-282).  The
external capabilities are parameters: strip (str.strip), search (the
compiled node-path regex), parse (EcflowLogParser.parse, None modelled
as Option.none) and emptyLine (the empty string readline returns at end
of file).  The function recomputes the window with get_line_no_range at
the default batch size 1000, returns none when begin_line_no or
end_line_no is 0 (the Python early return at lines 240-242), skips
skipped_line_count leading lines, then reads and processes
end_line_no - begin_line_no sequential lines. -/
def get_record_list (dateOf : α → Nat) (strip : α → α) (search : α → Bool)
    (parse : α → Option ρ) (emptyLine : α) (lines : List α)
    (start_date stop_date : Option Nat) : Option (List ρ) :=
  let r := get_line_no_range dateOf lines start_date stop_date 1000
  if r.1 = 0 ∨ r.2 = 0 then none
  else
    some ((List.range (r.2 - (r.1 : Int)).toNat).filterMap
      (fun j => process_line strip search parse
        (readlineAt emptyLine lines (skipped_line_count lines.length r.1 + j))))

/-- Embeds get_record_list from ecflow/analytic.py (lines 42-92).  It
differs from the log_file_util.py version in its skip count
(analytic_skipped_line_count) and in appending the parser result without
the None check (line 90), so its record list has Option elements. -/
def analytic_get_record_list (dateOf : α → Nat) (strip : α → α) (search : α → Bool)
    (parse : α → Option ρ) (emptyLine : α) (lines : List α)
    (start_date stop_date : Option Nat) : Option (List (Option ρ)) :=
  let r := get_line_no_range dateOf lines start_date stop_date 1000
  if r.1 = 0 ∨ r.2 = 0 then none
  else
    some ((List.range (r.2 - (r.1 : Int)).toNat).filterMap
      (fun j =>
        let l := strip (readlineAt emptyLine lines (analytic_skipped_line_count lines.length r.1 + j))
        if search l then some (parse l) else none))

/-- Embeds the NodeStatus enumeration of the external
nwpc_workflow_model package: the scheduler statuses the analysed claims
mention, plus unknown for the initial time point. -/
inductive NodeStatus where
  | unknown
  | queued
  | submitted
  | active
  | complete
  deriving DecidableEq

/-- Embeds a StatusLogRecord as the driver reads it: the node path (an
abstract identifier), the calendar date as a day index, the absolute
time of the event on a single timeline (so that subtracting the start of
a day is meaningful), and the status. -/
structure StatusRecord where
  node_path : Nat
  date : Nat
  time : Int
  status : NodeStatus
  deriving DecidableEq

/-- Modelled from the spec: SituationType of the external
nwpc_workflow_log_model package (spec section 4.4), restricted to the
states the classifier moves through while consuming events; Incomplete
is the classification of a day whose run ends in a state other than
Complete and is represented by the DayOutcome below. -/
inductive SituationType where
  | Pending
  | InProgress
  | Complete
  deriving DecidableEq

/-- Modelled from the spec: one recorded notable time point of a day
(spec section 3, NodeSituation). -/
structure TimePoint where
  status : NodeStatus
  time : Int
  deriving DecidableEq

/-- Modelled from the spec: the NodeSituation built by the external DFA,
a state plus the ordered time points (spec section 3). -/
structure NodeSituation where
  state : SituationType
  time_points : List TimePoint
  deriving DecidableEq

/-- Start of a calendar day on the absolute timeline, in minutes: the
Timestamp midnight the driver subtracts at analytic.py line 160. -/
def dayStart (d : Nat) : Int := (d : Int) * 1440

/-- Modelled from the spec: the designated terminal status of the
external DFA (spec section 4.4, a designated terminal status such as
complete). -/
def isTerminalStatus : NodeStatus → Bool
  | .complete => true
  | _ => false

/-- Modelled from the spec: the recognized non-terminal statuses the DFA
records (spec section 4.4: submitted, active, queued, and so on). -/
def isRecognizedStatus : NodeStatus → Bool
  | .submitted => true
  | .active => true
  | .queued => true
  | _ => false

/-- Modelled from the spec: the fresh NodeSituation for one day.  The
driver at analytic.py line 155 reads time_points[1] where the spec calls
it the first recorded time point, so index 0 holds an initial entry for
the day (status unknown at the start of the day) and recorded points
follow it. -/
def initNodeSituation (d : Nat) : NodeSituation :=
  { state := .Pending, time_points := [⟨.unknown, dayStart d⟩] }

/-- Modelled from the spec: the trigger transition function of
NodeStatusChangeDFA (spec section 4.4).  A terminal status moves any
non-Complete state to Complete recording its time point; a recognized
non-terminal status moves Pending or InProgress to InProgress and
records the first occurrence of that status; unrecognized statuses are
absorbed without a state change.  A Pending day receiving a recognized
intermediate status before submitted enters InProgress recording it,
which is what makes the spec scenario active-then-complete reach
Complete with a non-submitted first recorded point. -/
def dfaTrigger (st : NodeSituation) (s : NodeStatus) (t : Int) : NodeSituation :=
  match st.state with
  | .Complete => st
  | _ =>
      if isTerminalStatus s then
        { state := .Complete, time_points := st.time_points ++ [⟨s, t⟩] }
      else if isRecognizedStatus s then
        { state := .InProgress,
          time_points :=
            if st.time_points.any (fun p => p.status == s) then st.time_points
            else st.time_points ++ [⟨s, t⟩] }
      else st

/-- Embeds the event loop at analytic.py lines 145-151: trigger the DFA
on each status change in order and break as soon as the state is
Complete, leaving the rest of the day unconsumed. -/
def runDFADay (st : NodeSituation) : List StatusRecord → NodeSituation
  | [] => st
  | e :: rest =>
      let st1 := dfaTrigger st e.status e.time
      if st1.state = .Complete then st1 else runDFADay st1 rest

/-- Embeds generate_in_date_range from analytic.py lines 176-179: the
returned per-day filter is inclusive at both bounds, start_date less or
equal record date less or equal end_date. -/
def generate_in_date_range (start_date end_date : Nat) (r : StatusRecord) : Bool :=
  decide (start_date ≤ r.date) && decide (r.date ≤ end_date)

/-- Outcome of one day of the driver loop at analytic.py lines 137-165:
a sample appended to the time series, the anomalous skip at lines
156-158 (warning that there is no submitted point), or the skip at lines
163-165 (DFA not in complete). -/
inductive DayOutcome where
  | sample (t : Int)
  | anomalous
  | notComplete
  deriving DecidableEq

/-- Embeds one iteration of the day loop of analytic_status_point_dfa
(analytic.py lines 137-165): filter the records of the day with the
inclusive generate_in_date_range of current_date and current_date plus
one day, run the DFA over them, and on Complete read time_points[1],
skipping the day when its status is not submitted, otherwise producing
the sample time_points[1].time minus the start of the day. -/
def processDay (record_list : List StatusRecord) (d : Nat) : DayOutcome :=
  let current := record_list.filter (generate_in_date_range d (d + 1))
  let dfa := runDFADay (initNodeSituation d) current
  if dfa.state = .Complete then
    let p := dfa.time_points.getD 1 ⟨.unknown, 0⟩
    if p.status ≠ .submitted then .anomalous
    else .sample (p.time - dayStart d)
  else .notComplete

/-- The contribution of a day outcome to the time series: only samples
contribute. -/
def sampleOf : DayOutcome → Option Int
  | .sample t => some t
  | _ => none

set_option linter.unusedVariables false in
/-- Embeds analytic_status_point_dfa from analytic.py (lines 124-173) up
to the time series it builds: filter the records of the node (the
isinstance filter restricts to status records, which is the record type
embedded here), iterate over the days of pd.date_range(start, end,
closed=left), and collect the samples of the Complete, non-anomalous
days in day order.  The node_status argument is part of the source
signature and, like in the source, is never read. -/
def analytic_status_point_dfa (records : List StatusRecord) (node_path : Nat)
    (node_status : NodeStatus) (start_date end_date : Nat) : List Int :=
  let record_list := records.filter (fun r => r.node_path == node_path)
  ((List.range' start_date (end_date - start_date)).map
    (processDay record_list)).filterMap sampleOf

/-- Embeds the mean step at analytic.py lines 167-169:
pd.Series(time_series).mean(), which is the sum divided by the length
for a nonempty series and NaN for an empty one; NaN is modelled as
Option.none, a printed value rather than a raised error. -/
def seriesMean (l : List Int) : Option Rat :=
  if l = [] then none else some ((l.sum : Rat) / (l.length : Rat))

/-- Log file used as failing input for claim C4: 1001 lines all dated
1, one more line than the default batch size. -/
def c4File : List Nat := List.replicate 1001 1

/-- Log file used as failing input for claim C5: 999 lines dated 1
whose text does not contain the node path, then one line dated 2 that
does (second component 1 marks a node-path match). -/
def c5File : List (Nat × Nat) := List.replicate 999 (1, 0) ++ [(2, 1)]

example : get_line_no_range id [1, 1] (some 1) (some 2) 1000 = (1, 3) := by decide
example : get_line_no_range id [1, 1] (some 1) (some 2) 1 = (1, 4) := by decide
example : get_line_no_range id [1, 1, 2, 3] (some 2) (some 3) 2 = (3, 5) := by decide
example : get_line_no_range id [1] (some 2) (some 3) 1000 = (0, -1) := by decide
example : get_line_no_range id [1, 3] (some 2) (some 3) 1000 = (0, 0) := by decide
example : get_line_no_range id [1, 1, 2, 3] (some 2) (some 3) 1000 = (3, 4) := by decide

example :
    get_record_list Prod.fst id (fun l => l.2 == 1) (fun l => some l.2) (0, 0)
      ([((1 : Nat), (1 : Nat)), (1, 1)]) (some 1) (some 2) = some [1, 1] := by decide
example :
    analytic_get_record_list Prod.fst id (fun l => l.2 == 1) (fun l => some l.2) (0, 0)
      ([((1 : Nat), (1 : Nat)), (1, 1)]) (some 1) (some 2) = some [some 1] := by decide
example :
    analytic_status_point_dfa
      [⟨0, 0, 10, .submitted⟩, ⟨0, 0, 30, .complete⟩] 0 .submitted 0 1 = [10] := by decide
example :
    processDay [⟨0, 0, 10, .active⟩, ⟨0, 0, 30, .complete⟩] 0 = .anomalous := by decide
example :
    analytic_status_point_dfa
      [⟨0, 1, 10, .submitted⟩, ⟨0, 1, 30, .complete⟩] 0 .submitted 0 1 = [10] := by decide
example : seriesMean [] = none := by decide
example : seriesMean [10] = some 10 := by simp [seriesMean]

/-- When every line of the file has a date below the start date, the
first loop of get_line_no_range skips batch after batch (the last line
of each batch is below the start date) until the file is exhausted, and
returns begin_line_no and end_line_no unchanged. -/
theorem firstLoopGo_all_lt {α : Type} (dateOf : α → Nat) (sd : Nat)
    (stop_date : Option Nat) (batch : Nat) :
    ∀ (fuel : Nat) (rest : List α) (cf : Nat), rest.length < fuel →
      (∀ l ∈ rest, dateOf l < sd) →
      firstLoopGo dateOf (some sd) stop_date batch fuel rest cf 0 (-1) = Sum.inl (0, -1) := by
  intro fuel
  induction fuel with
  | zero =>
      intro rest cf hlen hall
      omega
  | succ m ih =>
      intro rest cf hlen hall
      cases hb : rest.take batch with
      | nil =>
          simp only [firstLoopGo, hb]
      | cons x xs =>
          have hsub : (x :: xs) ⊆ rest := by
            rw [← hb]; exact List.take_subset batch rest
          have hlt : dateOf ((x :: xs).getLast (List.cons_ne_nil x xs)) < sd :=
            hall _ (hsub (List.getLast_mem (List.cons_ne_nil x xs)))
          have hbatch : batch ≠ 0 := by
            intro h0; subst h0; simp at hb
          have hrest : rest ≠ [] := by
            intro h0; subst h0; simp at hb
          have hpos : 0 < rest.length := List.length_pos.mpr hrest
          have hdrop : (rest.drop batch).length = rest.length - batch :=
            List.length_drop batch rest
          simp only [firstLoopGo, hb]
          rw [if_pos hlt]
          exact ih (rest.drop batch) (cf + (x :: xs).length)
            (by omega) (fun l hl => hall l (List.drop_subset batch rest hl))

/-- When every line of the file has a date below the start date,
get_line_no_range returns (0, -1): begin_line_no never moved from 0 and
end_line_no keeps its initial value -1 (log_file_util.py lines 87-97). -/
theorem get_line_no_range_all_below_start {α : Type} (dateOf : α → Nat)
    (lines : List α) (sd : Nat) (stop_date : Option Nat) (batch : Nat)
    (hall : ∀ l ∈ lines, dateOf l < sd) :
    get_line_no_range dateOf lines (some sd) stop_date batch = (0, -1) := by
  unfold get_line_no_range
  rw [firstLoopGo_all_lt dateOf sd stop_date batch (lines.length + 1) lines 1
    (by omega) hall]

/-- Claim C1: on a log file with monotonically non-decreasing dates the
locator window is claimed boundary exact, every line inside the window
dated in the requested range and every line outside it dated outside.
The code violates this: on the monotone file with dates 1, 1, 2, 3 and
range from 2 to 3 with batch size 2, the scan at log_file_util.py line
130 starts at Python index cur_first_line_no - 1 = 2 of the 2-line
batch, an empty range, so the stop line is missed and the locator
returns the window from line 3 to line 5, which contains line 4 whose
date 3 is not below the stop date 3. -/
theorem C1_locator_window_not_boundary_exact :
    get_line_no_range id [1, 1, 2, 3] (some 2) (some 3) 2 = (3, 5)
    ∧ [1, 1, 2, 3].getD 3 0 = 3
    ∧ ¬((3 : Nat) < 3) := by decide

/-- Claim C2: the result of get_line_no_range is claimed independent of
batch_line_no.  The code violates this: on the 2-line file with dates 1
and 1 and range from 1 to 2, batch size 1000 yields the window (1, 3),
but batch size 1 yields (1, 4), because the branch at log_file_util.py
lines 158-161 advances cur_first_line_no by the batch length and then
adds the batch length again into end_line_no before the file ends. -/
theorem C2_batch_size_changes_result :
    get_line_no_range id [1, 1] (some 1) (some 2) 1000 = (1, 3)
    ∧ get_line_no_range id [1, 1] (some 1) (some 2) 1 = (1, 4)
    ∧ ((1 : Nat), (3 : Int)) ≠ ((1 : Nat), (4 : Int)) := by decide

/-- Claim C3 counterexample: on a file whose single line is dated 1 and
a start date 2 never reached, get_line_no_range returns (0, -1), not the
claimed sentinel (0, 0): end_line_no still holds its initial value -1
(log_file_util.py lines 87-88 and 96-97). -/
theorem C3_counterexample_exhausted_before_start :
    get_line_no_range id [1] (some 2) (some 3) 1000 = (0, -1)
    ∧ ((0 : Nat), (-1 : Int)) ≠ ((0 : Nat), (0 : Int)) := by decide

/-- Claim C3 (amended): when the file is exhausted before the start
date is reached, get_line_no_range returns (0, -1), with begin_line_no
0 marking the failure and end_line_no keeping its initial -1; and, for
every batch and every begin line, whenever the stop-date scan of the
first loop finds a stop line making the computed end line equal to the
begin line, it returns the sentinel (0, 0) as claimed
(log_file_util.py lines 130-138, embedded by firstLoopStop: the scan
result some i gives end_line_no = cur_first + i, and begin_no equal to
it forces the (0, 0) return).  The last conjunct instantiates the
(0, 0) case through the full locator on a file with dates 1 and 3 and
the empty matching range from 2 to 3. -/
theorem C3_sentinel_amended :
    (∀ (α : Type) (dateOf : α → Nat) (lines : List α) (sd : Nat)
        (stop_date : Option Nat) (batch : Nat),
      (∀ l ∈ lines, dateOf l < sd) →
      get_line_no_range dateOf lines (some sd) stop_date batch = (0, -1))
    ∧ (∀ (α : Type) (dateOf : α → Nat) (sd : Nat) (batchL restAfter : List α)
        (cur_first begin_no i : Nat),
      findIdxFrom (fun x => decide (sd ≤ dateOf x)) batchL (cur_first - 1) = some i →
      begin_no = cur_first + i →
      firstLoopStop dateOf (some sd) batchL restAfter cur_first begin_no = Sum.inl (0, 0))
    ∧ get_line_no_range id [1, 3] (some 2) (some 3) 1000 = (0, 0) := by
  refine ⟨?_, ?_, by decide⟩
  · intro _ dateOf lines sd stop_date batch hall
    exact get_line_no_range_all_below_start dateOf lines sd stop_date batch hall
  · intro _ dateOf sd batchL restAfter cur_first begin_no i hfind heq
    simp only [firstLoopStop, hfind]
    rw [if_pos heq]

/-- Witness for the amended claim C3 at concrete inputs: a one-line
file dated below the start date, and a stop scan of the batch with
dates 1 and 3 that finds the stop line at the begin line. -/
theorem C3_sentinel_amended_witness :
    get_line_no_range id [1] (some 2) (some 3) 1000 = (0, -1)
    ∧ firstLoopStop id (some 3) [1, 3] ([] : List Nat) 1 2 = Sum.inl (0, 0) :=
  ⟨C3_sentinel_amended.1 Nat id [1] 2 (some 3) 1000 (by decide),
   C3_sentinel_amended.2.1 Nat id 3 [1, 3] [] 1 2 1 (by decide) (by decide)⟩

/-- Claim C4: with a start date strictly below the first date and a
stop date strictly above the last date, the locator is claimed to
return (1, N + 1).  The code violates this whenever the file is longer
than one batch: on the 1001-line file c4File (all dates 1, start 0,
stop 2) with the default batch size 1000 it returns (1, 1003) instead
of (1, 1002), and on the 2-line file with batch size 1 it returns
(1, 4) instead of (1, 3); the branch at log_file_util.py lines 158-161
adds the batch length into end_line_no twice before end of file. -/
theorem C4_full_range_end_overshoot :
    c4File.length = 1001
    ∧ get_line_no_range id c4File (some 0) (some 2) 1000 = (1, 1003)
    ∧ ((1 : Nat), (1003 : Int)) ≠ ((1 : Nat), (1002 : Int))
    ∧ get_line_no_range id [1, 1] (some 0) (some 2) 1 = (1, 4) := by decide

/-- Claim C5: get_record_list is claimed to skip exactly the lines
before begin_line_no and consider exactly the lines of the half-open
window.  The code violates this when begin_line_no is a multiple of
1000: on c5File the locator returns the window (1000, 1001), the skip
phase consumes 1000 lines rather than 999 (remain_lines is 0, so the
range(0, remain_lines - 1) loop at log_file_util.py line 257 skips
nothing after one full islice batch), and the single read falls beyond
the end of file, so no record is returned although line 1000 (the pair
(2, 1) at index 999) matches the node path and parses to a record. -/
theorem C5_extractor_skips_matching_line_at_batch_multiple :
    get_line_no_range Prod.fst c5File (some 2) (some 3) 1000 = (1000, 1001)
    ∧ skipped_line_count c5File.length 1000 = 1000
    ∧ get_record_list Prod.fst id (fun l => l.2 == 1) (fun l => some l.2) (0, 0)
        c5File (some 2) (some 3) = some []
    ∧ c5File.getD 999 (0, 0) = (2, 1)
    ∧ process_line id (fun l => l.2 == 1) (fun l => some (l.2)) ((2 : Nat), (1 : Nat))
        = some 1 := by decide

/-- Claim C6: the per-day driver is claimed to feed the state machine of
day D only the events dated D.  The code violates this:
generate_in_date_range is inclusive at both bounds (analytic.py line
178), so the pass for day 0 over the range from day 0 to day 1 accepts
a record dated day 1, and a day-0 sample is produced although every
event of the input lies on day 1. -/
theorem C6_day_filter_includes_next_day :
    generate_in_date_range 0 1 ⟨0, 1, 1450, .submitted⟩ = true
    ∧ analytic_status_point_dfa
        [⟨0, 1, 1450, .submitted⟩, ⟨0, 1, 1500, .complete⟩] 0 .submitted 0 1
      = [1450] := by decide

/-- Claim C7: a day whose state machine reaches Complete but whose
first recorded time point (time_points[1]) has a status other than
submitted is skipped with a diagnostic and contributes no sample to the
time series (analytic.py lines 153-158). -/
theorem C7_anomalous_day_no_sample (record_list : List StatusRecord) (d : Nat)
    (hC : (runDFADay (initNodeSituation d)
        (record_list.filter (generate_in_date_range d (d + 1)))).state = .Complete)
    (hS : ((runDFADay (initNodeSituation d)
        (record_list.filter (generate_in_date_range d (d + 1)))).time_points.getD 1
          ⟨.unknown, 0⟩).status ≠ .submitted) :
    processDay record_list d = .anomalous
    ∧ sampleOf (processDay record_list d) = none := by
  have h1 : processDay record_list d = .anomalous := by
    simp only [processDay]
    rw [if_pos hC, if_pos hS]
  exact ⟨h1, by rw [h1]; rfl⟩

/-- Witness for claim C7: the day with events active then complete
reaches Complete with first recorded point active, is flagged anomalous
and contributes no sample. -/
theorem C7_anomalous_day_no_sample_witness :
    processDay [⟨0, 0, 10, .active⟩, ⟨0, 0, 30, .complete⟩] 0 = .anomalous
    ∧ sampleOf (processDay [⟨0, 0, 10, .active⟩, ⟨0, 0, 30, .complete⟩] 0) = none :=
  C7_anomalous_day_no_sample [⟨0, 0, 10, .active⟩, ⟨0, 0, 30, .complete⟩] 0
    (by decide) (by decide)

/-- Claim C8 counterexample: the sample is claimed to be the time point
of the status chosen by the node_status argument minus the start of the
day.  On a day with submitted at time 10 and complete at time 30,
running the driver with node_status complete still yields the sample 10
(the submitted point), not 30, and the output is identical to running
it with node_status submitted: analytic_status_point_dfa never reads
node_status. -/
theorem C8_counterexample_node_status_ignored :
    analytic_status_point_dfa [⟨0, 0, 10, .submitted⟩, ⟨0, 0, 30, .complete⟩]
        0 .complete 0 1 = [10]
    ∧ analytic_status_point_dfa [⟨0, 0, 10, .submitted⟩, ⟨0, 0, 30, .complete⟩]
        0 .complete 0 1
      = analytic_status_point_dfa [⟨0, 0, 10, .submitted⟩, ⟨0, 0, 30, .complete⟩]
        0 .submitted 0 1
    ∧ (10 : Int) ≠ 30 - dayStart 0 := by decide

/-- Claim C8 (amended): the driver output never depends on the
node_status argument, and for every Complete day whose first recorded
time point has status submitted the sample is that submitted time point
minus the start of the calendar day (analytic.py lines 155-161). -/
theorem C8_sample_amended :
    (∀ (records : List StatusRecord) (node_path : Nat) (ns1 ns2 : NodeStatus)
        (s e : Nat),
      analytic_status_point_dfa records node_path ns1 s e
        = analytic_status_point_dfa records node_path ns2 s e)
    ∧ (∀ (record_list : List StatusRecord) (d : Nat),
        (runDFADay (initNodeSituation d)
          (record_list.filter (generate_in_date_range d (d + 1)))).state = .Complete →
        ((runDFADay (initNodeSituation d)
          (record_list.filter (generate_in_date_range d (d + 1)))).time_points.getD 1
            ⟨.unknown, 0⟩).status = .submitted →
        processDay record_list d
          = .sample (((runDFADay (initNodeSituation d)
              (record_list.filter (generate_in_date_range d (d + 1)))).time_points.getD 1
                ⟨.unknown, 0⟩).time - dayStart d)) := by
  constructor
  · intro records node_path ns1 ns2 s e
    rfl
  · intro record_list d hC hS
    simp only [processDay]
    rw [if_pos hC, if_neg (fun h => h hS)]

/-- Witness for the amended claim C8 at concrete inputs. -/
theorem C8_sample_amended_witness :
    analytic_status_point_dfa [⟨0, 0, 10, .submitted⟩, ⟨0, 0, 30, .complete⟩]
        0 .complete 0 1
      = analytic_status_point_dfa [⟨0, 0, 10, .submitted⟩, ⟨0, 0, 30, .complete⟩]
        0 .submitted 0 1
    ∧ processDay [⟨0, 0, 10, .submitted⟩, ⟨0, 0, 30, .complete⟩] 0
      = .sample (10 - dayStart 0) := by
  refine ⟨C8_sample_amended.1 [⟨0, 0, 10, .submitted⟩, ⟨0, 0, 30, .complete⟩]
      0 .complete .submitted 0 1, ?_⟩
  rw [C8_sample_amended.2 [⟨0, 0, 10, .submitted⟩, ⟨0, 0, 30, .complete⟩] 0
      (by decide) (by decide)]
  decide

/-- Claim C9 counterexample: with zero samples the aggregation is
claimed to fail with an EmptySeries error and never to print an
undefined mean.  The code has no such error: the mean step is the total
pandas Series mean, which on the empty series produced by a run with no
Complete day yields NaN (modelled Option.none), a value that the code
prints (analytic.py lines 167-169). -/
theorem C9_counterexample_empty_series_prints_nan :
    analytic_status_point_dfa [] 0 .submitted 0 2 = []
    ∧ seriesMean (analytic_status_point_dfa [] 0 .submitted 0 2) = none := by decide

/-- Claim C9 (amended): on an empty sample series the mean step yields
NaN (modelled Option.none) and prints it, raising no error; no division
is performed in that case, the division only happens on a nonempty
series, where the mean is the sum divided by the count. -/
theorem C9_empty_series_amended :
    (∀ l : List Int, l = [] → seriesMean l = none)
    ∧ (∀ l : List Int, l ≠ [] → seriesMean l = some ((l.sum : Rat) / (l.length : Rat)))
    ∧ seriesMean (analytic_status_point_dfa [] 0 .submitted 0 2) = none := by
  refine ⟨?_, ?_, by decide⟩
  · intro l hl
    simp [seriesMean, hl]
  · intro l hl
    simp [seriesMean, hl]

/-- Witness for the amended claim C9 at concrete inputs. -/
theorem C9_empty_series_amended_witness :
    seriesMean [] = none
    ∧ seriesMean [10] = some ((([10] : List Int).sum : Rat)
        / ((([10] : List Int).length : Nat) : Rat)) :=
  ⟨C9_empty_series_amended.1 [] rfl,
   C9_empty_series_amended.2.1 [10] (by decide)⟩

/-- Claim C10 counterexample: the two get_record_list implementations
are claimed equivalent.  On the 2-line file dated 1, 1 with both lines
matching the node path and the range from 1 to 2 (window (1, 3)), the
log_file_util.py version skips 0 leading lines and returns both
records, while the analytic.py version skips 1 leading line (its remain
loop is range(0, remain_lines), analytic.py line 71) and returns only
the second record, reading past the end of file for the other. -/
theorem C10_counterexample_extractors_differ :
    get_record_list Prod.fst id (fun l => l.2 == 1) (fun l => some l.2) (0, 0)
      [((1 : Nat), (1 : Nat)), (1, 1)] (some 1) (some 2) = some [1, 1]
    ∧ analytic_get_record_list Prod.fst id (fun l => l.2 == 1) (fun l => some l.2) (0, 0)
      [((1 : Nat), (1 : Nat)), (1, 1)] (some 1) (some 2) = some [some 1]
    ∧ skipped_line_count 2 1 = 0
    ∧ analytic_skipped_line_count 2 1 = 1
    ∧ ([some 1] : List (Option Nat)) ≠ [some 1, some 1] := by decide

/-- Claim C10 (amended): the two extractors are not equivalent.  For a
begin line within the file, the analytic.py version always skips
begin_line_no leading lines, so it reads the window shifted one line
late, while the log_file_util.py version skips begin_line_no - 1 lines
(the claimed behaviour) except when begin_line_no is a multiple of
1000, where it also skips begin_line_no; the analytic.py version
additionally keeps None parser results in its output list. -/
theorem C10_extractors_amended :
    (∀ (L b : Nat), b ≤ L → analytic_skipped_line_count L b = b)
    ∧ (∀ (L b : Nat), b ≤ L → b % 1000 ≠ 0 → skipped_line_count L b = b - 1)
    ∧ (∀ (L b : Nat), b ≤ L → b % 1000 = 0 → skipped_line_count L b = b) := by
  refine ⟨?_, ?_, ?_⟩
  · intro L b hbL
    unfold analytic_skipped_line_count
    have h1 : b / 1000 * 1000 ≤ b := Nat.div_mul_le_self b 1000
    have h2 : 1000 * (b / 1000) + b % 1000 = b := Nat.div_add_mod b 1000
    rw [min_eq_left (le_trans h1 hbL)]
    omega
  · intro L b hbL hm
    unfold skipped_line_count
    have h1 : b / 1000 * 1000 ≤ b := Nat.div_mul_le_self b 1000
    have h2 : 1000 * (b / 1000) + b % 1000 = b := Nat.div_add_mod b 1000
    rw [min_eq_left (le_trans h1 hbL)]
    omega
  · intro L b hbL hm
    unfold skipped_line_count
    have h1 : b / 1000 * 1000 ≤ b := Nat.div_mul_le_self b 1000
    have h2 : 1000 * (b / 1000) + b % 1000 = b := Nat.div_add_mod b 1000
    rw [min_eq_left (le_trans h1 hbL)]
    omega

/-- Witness for the amended claim C10 at concrete inputs. -/
theorem C10_extractors_amended_witness :
    analytic_skipped_line_count 2 1 = 1
    ∧ skipped_line_count 2 1 = 1 - 1
    ∧ skipped_line_count 1000 1000 = 1000 :=
  ⟨C10_extractors_amended.1 2 1 (by decide),
   C10_extractors_amended.2.1 2 1 (by decide) (by decide),
   C10_extractors_amended.2.2 1000 1000 (by decide) (by decide)⟩
